import Mathlib

/-!
Shallow embedding of the aiembodied Home Assistant integration core
(`custom_components/aiembodied`): the autonomy controller
(`autonomy.py`), the exposure filter (`exposure.py`) and the
`invoke_service` action gate (`__init__.py`).

Stateful Python methods are embedded as pure functions returning the
updated state together with an ordered trace of observable effects
(listener notifications, pause-callback invocations, host notification
calls, durable option writes).  Callbacks and listeners are identified
by opaque numeric ids; the registries keep registration order, as the
Python lists do.
-/

deriving instance DecidableEq for Except

namespace Aiembodied

/-- Constant `OPTIONS_AUTONOMY_PAUSED` from `const.py`. -/
def OPTIONS_AUTONOMY_PAUSED : String := "autonomy_paused"

/-- Constant `NOTIFICATION_AUTONOMY_FAILURE` from `const.py`. -/
def NOTIFICATION_AUTONOMY_FAILURE : String := "aiembodied_autonomy_failure"

/-- Constant `AUTONOMY_FAILURE_THRESHOLD` from `const.py` (default threshold). -/
def AUTONOMY_FAILURE_THRESHOLD : Int := 3

/-- Embedding of the `autonomy.py` dataclass `AutonomyDiagnostics`. -/
structure AutonomyDiagnostics where
  consecutive_failures : Nat
  last_failure : Option String
  last_source : Option String
deriving DecidableEq

/-- Observable side effects of the autonomy controller, in program order. -/
inductive AEffect where
  /-- One registered state listener was invoked (`_async_notify_listeners`). -/
  | listenerNotified (listener : Nat)
  /-- One registered pause callback was invoked with the new paused value
  (`_async_apply_pause_state`). -/
  | pauseCallbackInvoked (cb : Nat) (paused : Bool)
  /-- `hass.services.async_call("persistent_notification", "create", ...)`
  with the given `notification_id` and `blocking` flag. -/
  | notificationCreated (notification_id : String) (blocking : Bool)
  /-- `hass.config_entries.async_update_entry` persisted the paused flag. -/
  | optionsWritten (paused : Bool)
deriving DecidableEq

/-- Embedding of the `autonomy.py` class `AutonomyController`.  `entry_options` embeds the
config entry option stored under `OPTIONS_AUTONOMY_PAUSED` (`none` when the
key is absent); `listeners` and `pause_callbacks` are the registries in
registration order. -/
structure AutonomyController where
  entry_id : String
  paused : Bool
  failure_threshold : Int
  diagnostics : AutonomyDiagnostics
  notification_active : Bool
  entry_options : Option Bool
  listeners : List Nat
  pause_callbacks : List Nat
deriving DecidableEq

namespace AutonomyController

/-- Constructor `AutonomyController.__init__`: the stored threshold is
`max(1, failure_threshold)`; diagnostics start at zero, no notification is
active, the registries are empty. -/
def init (entry_id : String) (stored : Option Bool) (initial_paused : Bool)
    (failure_threshold : Int) : AutonomyController where
  entry_id := entry_id
  paused := initial_paused
  failure_threshold := max 1 failure_threshold
  diagnostics := ⟨0, none, none⟩
  notification_active := false
  entry_options := stored
  listeners := []
  pause_callbacks := []

/-- Property `upstream_available`: healthy iff zero consecutive failures. -/
def upstream_available (c : AutonomyController) : Bool :=
  c.diagnostics.consecutive_failures == 0

/-- Registration part of `async_add_listener`. -/
def async_add_listener (c : AutonomyController) (l : Nat) : AutonomyController :=
  { c with listeners := c.listeners ++ [l] }

/-- Method `add_pause_callbacks`: extend the registry. -/
def add_pause_callbacks (c : AutonomyController) (cbs : List Nat) : AutonomyController :=
  { c with pause_callbacks := c.pause_callbacks ++ cbs }

/-- Method `_async_notify_listeners`: every registered listener is invoked once,
in registration order (exceptions are swallowed per listener). -/
def notifyListeners (c : AutonomyController) : List AEffect :=
  c.listeners.map AEffect.listenerNotified

/-- The fixed notification id used by `record_failure`:
`f"\x7bNOTIFICATION_AUTONOMY_FAILURE\x7d_\x7bself.entry_id\x7d"`. -/
def notificationId (c : AutonomyController) : String :=
  NOTIFICATION_AUTONOMY_FAILURE ++ "_" ++ c.entry_id

/-- Method `record_success`: no-op when already healthy with no active
notification; otherwise reset diagnostics, clear the notification flag and
notify listeners once. -/
def record_success (c : AutonomyController) : AutonomyController × List AEffect :=
  if c.diagnostics.consecutive_failures == 0 && !c.notification_active then
    (c, [])
  else
    ({ c with diagnostics := ⟨0, none, none⟩, notification_active := false },
      c.notifyListeners)

/-- Method `record_failure`: increment the counter, record source/message, notify
listeners; then, when the count has reached the threshold and no
notification is active, mark the notification active and fire the host
notification (`blocking=False`) under the fixed per-entry id. -/
def record_failure (c : AutonomyController) (source message : String) :
    AutonomyController × List AEffect :=
  let d : AutonomyDiagnostics :=
    { consecutive_failures := c.diagnostics.consecutive_failures + 1
      last_failure := some message
      last_source := some source }
  let c1 : AutonomyController := { c with diagnostics := d }
  if (d.consecutive_failures : Int) < c1.failure_threshold then
    (c1, c1.notifyListeners)
  else if c1.notification_active then
    (c1, c1.notifyListeners)
  else
    ({ c1 with notification_active := true },
      c1.notifyListeners ++ [AEffect.notificationCreated c1.notificationId false])

/-- Method `_async_update_entry_options`: persist the paused flag into the entry
options, but only when the stored value differs (a missing key differs
from every boolean, as `dict.get` yields `None` there). -/
def update_entry_options (c : AutonomyController) (paused : Bool) :
    AutonomyController × List AEffect :=
  if c.entry_options == some paused then
    (c, [])
  else
    ({ c with entry_options := some paused }, [AEffect.optionsWritten paused])

/-- Method `async_set_paused`: update the in-memory flag first, then persist when
requested, then — when the value changed or `force_notify` is set — run the
pause callbacks in registration order and notify the state listeners. -/
def async_set_paused (c : AutonomyController) (paused persist force_notify : Bool) :
    AutonomyController × List AEffect :=
  let state_changed := paused != c.paused
  let c1 : AutonomyController := { c with paused := paused }
  let persisted := if persist then c1.update_entry_options paused else (c1, [])
  let c2 := persisted.1
  if state_changed || force_notify then
    (c2, persisted.2
      ++ c2.pause_callbacks.map (fun cb => AEffect.pauseCallbackInvoked cb paused)
      ++ c2.notifyListeners)
  else
    (c2, persisted.2)

end AutonomyController

/-- Modelled from the spec: the host notification mechanism is an external
collaborator ("Host notification call: `create(title, message, id)`,
fire-and-forget", §6).  A dispatch with `blocking = false` schedules the
service task and returns to the awaiter without surfacing the outcome of
the channel itself; only a blocking dispatch would propagate it. -/
def hostServiceDispatch (blocking : Bool) (channel : Except String Unit) :
    Except String Unit :=
  if blocking then channel else Except.ok ()

/-- Composition of `record_failure` with the host dispatch of its notification
call: the channel outcome `channel` is what the notification service would
raise if it were awaited. -/
def AutonomyController.record_failure_run (c : AutonomyController)
    (source message : String) (channel : Except String Unit) :
    Except String (AutonomyController × List AEffect) :=
  let d : AutonomyDiagnostics :=
    { consecutive_failures := c.diagnostics.consecutive_failures + 1
      last_failure := some message
      last_source := some source }
  let c1 : AutonomyController := { c with diagnostics := d }
  if (d.consecutive_failures : Int) < c1.failure_threshold then
    Except.ok (c1, c1.notifyListeners)
  else if c1.notification_active then
    Except.ok (c1, c1.notifyListeners)
  else
    match hostServiceDispatch false channel with
    | Except.ok _ =>
        Except.ok ({ c1 with notification_active := true },
          c1.notifyListeners ++ [AEffect.notificationCreated c1.notificationId false])
    | Except.error e => Except.error e

/-- Effect classifiers. -/
def AEffect.isListener : AEffect → Bool
  | .listenerNotified _ => true
  | _ => false

def AEffect.isPauseCb : AEffect → Bool
  | .pauseCallbackInvoked _ _ => true
  | _ => false

def AEffect.isNotif : AEffect → Bool
  | .notificationCreated _ _ => true
  | _ => false

def AEffect.isWrite : AEffect → Bool
  | .optionsWritten _ => true
  | _ => false

/-- Listener-notification effects of a trace, in order. -/
def listenerEffects (es : List AEffect) : List AEffect :=
  es.filter AEffect.isListener

/-- Pause-callback effects of a trace, in order. -/
def pauseCbEffects (es : List AEffect) : List AEffect :=
  es.filter AEffect.isPauseCb

/-- Host-notification effects of a trace, in order. -/
def notifEffects (es : List AEffect) : List AEffect :=
  es.filter AEffect.isNotif

/-- Durable-write effects of a trace, in order. -/
def writeEffects (es : List AEffect) : List AEffect :=
  es.filter AEffect.isWrite

/-- Run a sequence of `record_failure` calls (an unbroken failure streak),
concatenating the effect traces. -/
def run_failures (c : AutonomyController) :
    List (String × String) → AutonomyController × List AEffect
  | [] => (c, [])
  | (s, m) :: rest =>
    let step := c.record_failure s m
    let tail := run_failures step.1 rest
    (tail.1, step.2 ++ tail.2)

/-- Controller states reachable from a constructed controller through its
public operations. -/
inductive Reachable : AutonomyController → Prop where
  | init : ∀ (entry_id : String) (stored : Option Bool) (initial_paused : Bool)
      (failure_threshold : Int),
      Reachable (AutonomyController.init entry_id stored initial_paused failure_threshold)
  | fail : ∀ {c : AutonomyController} (s m : String), Reachable c →
      Reachable (c.record_failure s m).1
  | succ : ∀ {c : AutonomyController}, Reachable c → Reachable c.record_success.1
  | pause : ∀ {c : AutonomyController} (p persist force : Bool), Reachable c →
      Reachable (c.async_set_paused p persist force).1
  | listener : ∀ {c : AutonomyController} (l : Nat), Reachable c →
      Reachable (c.async_add_listener l)
  | callbacks : ∀ {c : AutonomyController} (cbs : List Nat), Reachable c →
      Reachable (c.add_pause_callbacks cbs)

/-! ## Exposure filter (`exposure.py`) -/

/-- Python `str` whitespace (the characters `str.strip` removes). -/
def pyIsSpace (c : Char) : Bool :=
  c == ' ' || c == '\t' || c == '\n' || c == '\x0b' || c == '\x0c' || c == '\r'

/-- Python `str.strip()`: drop leading and trailing whitespace. -/
def pyStrip (s : String) : String :=
  ⟨((s.data.dropWhile pyIsSpace).reverse.dropWhile pyIsSpace).reverse⟩

/-- Python `str.lower()` on one character (ASCII range, as used by the
entity-id and pattern strings involved). -/
def pyCharLower (c : Char) : Char :=
  if 65 ≤ c.toNat ∧ c.toNat ≤ 90 then Char.ofNat (c.toNat + 32) else c

/-- Python `str.lower()`. -/
def pyLower (s : String) : String :=
  ⟨s.data.map pyCharLower⟩

/-- Python `str.endswith(suffix)`. -/
def pyEndsWith (s suffix : String) : Bool :=
  List.isSuffixOf suffix.data s.data

/-- Python slicing `s[:-n]` for `n ≤ len(s)`. -/
def pyDropRight (s : String) (n : Nat) : String :=
  ⟨s.data.take (s.data.length - n)⟩

/-- Python `c in s` for a single character. -/
def pyContainsChar (s : String) (c : Char) : Bool :=
  s.data.contains c

/-- Embedding of the `exposure.py` dataclass `_ExposureFilters`.  The Python sets are
embedded as lists; only membership is ever consulted. -/
structure ExposureFilters where
  entities : List String
  domains : List String
deriving DecidableEq

namespace ExposureFilters

/-- One iteration of the loop in `_ExposureFilters.from_iterable`. -/
def addPattern (f : ExposureFilters) (item : String) : ExposureFilters :=
  let normalized := pyLower (pyStrip item)
  if normalized = "" then f
  else if pyEndsWith normalized ".*" then
    { f with domains := f.domains ++ [pyDropRight normalized 2] }
  else if !(pyContainsChar normalized '.') then
    { f with domains := f.domains ++ [normalized] }
  else
    { f with entities := f.entities ++ [normalized] }

/-- Classmethod `_ExposureFilters.from_iterable`. -/
def from_iterable (exposure : List String) : ExposureFilters :=
  exposure.foldl addPattern ⟨[], []⟩

/-- Embedding of `entity_lower.split(".", 1)[0]`: the part up to the first dot. -/
def domainOf (s : String) : String :=
  ⟨s.data.takeWhile (fun ch => ch ≠ '.')⟩

/-- Method `_ExposureFilters.allows`. -/
def allows (f : ExposureFilters) (entity_id : String) : Bool :=
  let entity_lower := pyLower entity_id
  if f.entities.contains entity_lower then true
  else f.domains.contains (domainOf entity_lower)

end ExposureFilters

/-- Stated from the claim wording, to be compared with the compiled
filter: a single pattern admits an identifier when, after trimming and
lower-casing, it is non-empty and either (a) it ends in `.*` and the
stripped part equals the domain of the identifier, (b) it has no dot and
equals the domain of the identifier, or (c) otherwise it equals the
lower-cased identifier exactly. -/
def specPatternMatch (p : String) (entity_id : String) : Bool :=
  let n := pyLower (pyStrip p)
  if n = "" then false
  else if pyEndsWith n ".*" then
    ExposureFilters.domainOf (pyLower entity_id) == pyDropRight n 2
  else if !(pyContainsChar n '.') then
    ExposureFilters.domainOf (pyLower entity_id) == n
  else
    pyLower entity_id == n

/-! ## Action invocation gate (`__init__.py`, `_async_handle_invoke_service`) -/

/-- Values appearing in the flat audit / payload records.  `strMap` stands
for a nested mapping (target, service data, context) whose internals the
claims treat opaquely. -/
inductive AVal where
  | null
  | str (s : String)
  | bool (b : Bool)
  | strMap (m : List (String × String))
deriving DecidableEq

/-- An inbound `invoke_service` request after Home Assistant has decoded
the service call data.  Optional fields are `none` when the caller omitted
the key. -/
structure ActionRequest where
  entry_id : String
  domain : String
  service : String
  service_data : List (String × String)
  target : Option (List (String × String))
  correlation_id : Option String
  context_id : Option String
  context_user_id : Option String
  context_parent_id : Option String
deriving DecidableEq

/-- Helper for `_validate_action_service_data`: it drops optional string attributes that
are present but empty (only truthy values are kept). -/
def normOpt (o : Option String) : Option String :=
  match o with
  | some s => if s = "" then none else some s
  | none => none

/-- Validation `_validate_action_service_data`: reject empty `entry_id`, `domain` or
`service`; keep optional string fields only when non-empty. -/
def validate_action_service_data (req : ActionRequest) : Except String ActionRequest :=
  if req.entry_id = "" then
    Except.error "Service data must include a non-empty entry_id"
  else if req.domain = "" then
    Except.error "Service data must include a non-empty domain"
  else if req.service = "" then
    Except.error "Service data must include a non-empty service"
  else
    Except.ok { req with
      correlation_id := normOpt req.correlation_id
      context_id := normOpt req.context_id
      context_user_id := normOpt req.context_user_id
      context_parent_id := normOpt req.context_parent_id }

/-- Composition of `_context_from_service_data` and
`_serialize_context_for_action`: the context block sent upstream, `none`
when no context attribute was supplied. -/
def serialize_context_for_action (req : ActionRequest) : Option (List (String × String)) :=
  let result :=
    (match req.context_id with | some s => [("id", s)] | none => [])
    ++ (match req.context_user_id with | some s => [("user_id", s)] | none => [])
    ++ (match req.context_parent_id with | some s => [("parent_id", s)] | none => [])
  if result = [] then none else some result

/-- The `action_executed` audit record built by
`_async_handle_invoke_service`: `entry_id`, `domain`, `service`,
`correlation_id` (always present, `null` when absent), `success`, then
`target` only when supplied and `error` only when an error message was
captured. -/
def buildActionAudit (entry_id domain service : String) (correlation_id : Option String)
    (success : Bool) (target : Option (List (String × String)))
    (error_message : Option String) : List (String × AVal) :=
  [("entry_id", AVal.str entry_id),
   ("domain", AVal.str domain),
   ("service", AVal.str service),
   ("correlation_id", match correlation_id with
     | some s => AVal.str s
     | none => AVal.null),
   ("success", AVal.bool success)]
  ++ (match target with | some t => [("target", AVal.strMap t)] | none => [])
  ++ (match error_message with | some e => [("error", AVal.str e)] | none => [])

/-- The `action` object of the upstream `action_result` payload. -/
def buildActionPayload (entry_id domain service : String)
    (service_data : List (String × String)) (success : Bool)
    (result : Option String) (target : Option (List (String × String)))
    (correlation_id : Option String) (context : Option (List (String × String)))
    (error_message : Option String) : List (String × AVal) :=
  [("entry_id", AVal.str entry_id),
   ("domain", AVal.str domain),
   ("service", AVal.str service),
   ("service_data", AVal.strMap service_data),
   ("success", AVal.bool success),
   ("result", match result with | some r => AVal.str r | none => AVal.null)]
  ++ (match target with | some t => [("target", AVal.strMap t)] | none => [])
  ++ (match correlation_id with
      | some s => [("correlation_id", AVal.str s)]
      | none => [])
  ++ (match context with | some m => [("context", AVal.strMap m)] | none => [])
  ++ (match success, error_message with
      | false, some e => [("error", AVal.str e)]
      | _, _ => [])

/-- The structured service response returned to the invoking caller.
`error` and `correlation_id` are `none` exactly when the corresponding key
is absent from the response dict. -/
structure InvokeResponse where
  success : Bool
  result : Option String
  error : Option String
  correlation_id : Option String
deriving DecidableEq

/-- Observable effects of one `invoke_service` handling: host executor
calls (`hass.services.async_call`, as domain/service/data triples), audit
events fired on the bus, upstream HTTP payloads posted, and the autonomy
controller state after the call together with its effect trace. -/
structure InvokeEffects where
  executor_calls : List (String × String × List (String × String))
  audit_events : List (List (String × AVal))
  upstream_payloads : List (List (String × AVal))
  autonomy : AutonomyController
  autonomy_effects : List AEffect
deriving DecidableEq

/-- Embedding of `_async_handle_invoke_service`, from validation onward, for a request
addressed to an active runtime.  The host executor outcome (`executor`)
and the upstream report outcome (`upstream`) are inputs: they describe
what the external collaborators would do if invoked.  A `Except.error`
return models an uncaught `HomeAssistantError` raised to the service
caller. -/
def handle_invoke (auto : AutonomyController) (req : ActionRequest)
    (executor : Except String String) (upstream : Except String Unit) :
    Except String InvokeResponse × InvokeEffects :=
  let noEffects : InvokeEffects := ⟨[], [], [], auto, []⟩
  match validate_action_service_data req with
  | Except.error e => (Except.error e, noEffects)
  | Except.ok data =>
    if auto.paused then
      (Except.error "Autonomy is currently paused for this Embodied AI instance",
        noEffects)
    else
      let context := serialize_context_for_action data
      let outcome :=
        match executor with
        | Except.ok r => (true, (none : Option String), (some r : Option String))
        | Except.error e => (false, some e, none)
      let success := outcome.1
      let error_message := outcome.2.1
      let result := outcome.2.2
      let audit := buildActionAudit data.entry_id data.domain data.service
        data.correlation_id success data.target error_message
      let payload := buildActionPayload data.entry_id data.domain data.service
        data.service_data success result data.target data.correlation_id
        context error_message
      let report :=
        match upstream with
        | Except.ok _ => auto.record_success
        | Except.error e => auto.record_failure "action_result" e
      (Except.ok ⟨success, result, error_message, data.correlation_id⟩,
        ⟨[(data.domain, data.service, data.service_data)], [audit], [payload],
          report.1, report.2⟩)

/-! ## Helper lemmas on effect traces -/

theorem filter_map_of_true {α : Type} (f : α → AEffect) (p : AEffect → Bool)
    (h : ∀ a, p (f a) = true) (l : List α) : (l.map f).filter p = l.map f := by
  induction l with
  | nil => rfl
  | cons a t ih => simp [List.filter_cons, h, ih]

theorem filter_map_of_false {α : Type} (f : α → AEffect) (p : AEffect → Bool)
    (h : ∀ a, p (f a) = false) (l : List α) : (l.map f).filter p = [] := by
  induction l with
  | nil => rfl
  | cons a t ih => simp [List.filter_cons, h, ih]

theorem listenerEffects_listener_map (ls : List Nat) :
    listenerEffects (ls.map AEffect.listenerNotified) = ls.map AEffect.listenerNotified :=
  filter_map_of_true _ _ (fun _ => rfl) ls

theorem notifEffects_listener_map (ls : List Nat) :
    notifEffects (ls.map AEffect.listenerNotified) = [] :=
  filter_map_of_false _ _ (fun _ => rfl) ls

theorem pauseCbEffects_listener_map (ls : List Nat) :
    pauseCbEffects (ls.map AEffect.listenerNotified) = [] :=
  filter_map_of_false _ _ (fun _ => rfl) ls

theorem writeEffects_listener_map (ls : List Nat) :
    writeEffects (ls.map AEffect.listenerNotified) = [] :=
  filter_map_of_false _ _ (fun _ => rfl) ls

theorem pauseCbEffects_pause_map (ls : List Nat) (p : Bool) :
    pauseCbEffects (ls.map (fun cb => AEffect.pauseCallbackInvoked cb p))
      = ls.map (fun cb => AEffect.pauseCallbackInvoked cb p) :=
  filter_map_of_true _ _ (fun _ => rfl) ls

theorem listenerEffects_pause_map (ls : List Nat) (p : Bool) :
    listenerEffects (ls.map (fun cb => AEffect.pauseCallbackInvoked cb p)) = [] :=
  filter_map_of_false _ _ (fun _ => rfl) ls

theorem writeEffects_pause_map (ls : List Nat) (p : Bool) :
    writeEffects (ls.map (fun cb => AEffect.pauseCallbackInvoked cb p)) = [] :=
  filter_map_of_false _ _ (fun _ => rfl) ls

theorem listenerEffects_append (a b : List AEffect) :
    listenerEffects (a ++ b) = listenerEffects a ++ listenerEffects b :=
  List.filter_append a b

theorem pauseCbEffects_append (a b : List AEffect) :
    pauseCbEffects (a ++ b) = pauseCbEffects a ++ pauseCbEffects b :=
  List.filter_append a b

theorem notifEffects_append (a b : List AEffect) :
    notifEffects (a ++ b) = notifEffects a ++ notifEffects b :=
  List.filter_append a b

theorem writeEffects_append (a b : List AEffect) :
    writeEffects (a ++ b) = writeEffects a ++ writeEffects b :=
  List.filter_append a b

/-! ## C2: exposure filter semantics -/

theorem allows_addPattern (f : ExposureFilters) (p entity_id : String) :
    ((f.addPattern p).allows entity_id = true) ↔
      (f.allows entity_id = true ∨ specPatternMatch p entity_id = true) := by
  unfold ExposureFilters.addPattern specPatternMatch ExposureFilters.allows
  by_cases h1 : pyLower (pyStrip p) = ""
  · simp [h1]
  · by_cases h2 : pyEndsWith (pyLower (pyStrip p)) ".*"
    · by_cases h3 : f.entities.contains (pyLower entity_id)
      · simp [h1, h2, h3, List.elem_iff, List.mem_append, beq_iff_eq]
        tauto
      · simp [h1, h2, h3, List.elem_iff, List.mem_append, beq_iff_eq]
        tauto
    · by_cases h4 : pyContainsChar (pyLower (pyStrip p)) '.'
      · by_cases h3 : f.entities.contains (pyLower entity_id)
        · simp [h1, h2, h4, h3, List.elem_iff, List.mem_append, beq_iff_eq]
          tauto
        · simp [h1, h2, h4, h3, List.elem_iff, List.mem_append, beq_iff_eq]
          tauto
      · by_cases h3 : f.entities.contains (pyLower entity_id)
        · simp [h1, h2, h4, h3, List.elem_iff, List.mem_append, beq_iff_eq]
          tauto
        · simp [h1, h2, h4, h3, List.elem_iff, List.mem_append, beq_iff_eq]
          tauto

theorem allows_foldl (ps : List String) (f : ExposureFilters) (entity_id : String) :
    ((ps.foldl ExposureFilters.addPattern f).allows entity_id = true) ↔
      (f.allows entity_id = true ∨ ∃ p ∈ ps, specPatternMatch p entity_id = true) := by
  induction ps generalizing f with
  | nil => simp
  | cons q qs ih =>
    simp only [List.foldl_cons, ih, allows_addPattern, List.exists_mem_cons_iff]
    tauto

/-- C2: `allows` on a compiled filter accepts an identifier exactly when
one of the patterns admits it — the lower-cased identifier equals a
compiled entity pattern, or its domain part matches a compiled domain or
domain wildcard; empty patterns never match anything. -/
theorem claim_C2 (patterns : List String) (entity_id : String) :
    ((ExposureFilters.from_iterable patterns).allows entity_id = true) ↔
      (∃ p ∈ patterns, specPatternMatch p entity_id = true) := by
  have h := allows_foldl patterns ⟨[], []⟩ entity_id
  have hempty : (ExposureFilters.allows ⟨[], []⟩ entity_id) = false := rfl
  rw [ExposureFilters.from_iterable, h, hempty]
  simp

/-! ## Autonomy controller: basic characterizations -/

theorem record_failure_eq (c : AutonomyController) (s m : String) :
    c.record_failure s m =
      (if ((c.diagnostics.consecutive_failures + 1 : Nat) : Int) < c.failure_threshold
       then ({ c with diagnostics := ⟨c.diagnostics.consecutive_failures + 1, some m, some s⟩ },
             c.listeners.map AEffect.listenerNotified)
       else if c.notification_active = true
       then ({ c with diagnostics := ⟨c.diagnostics.consecutive_failures + 1, some m, some s⟩ },
             c.listeners.map AEffect.listenerNotified)
       else ({ c with diagnostics := ⟨c.diagnostics.consecutive_failures + 1, some m, some s⟩,
                      notification_active := true },
             c.listeners.map AEffect.listenerNotified ++
               [AEffect.notificationCreated
                 (NOTIFICATION_AUTONOMY_FAILURE ++ "_" ++ c.entry_id) false])) := by
  simp only [AutonomyController.record_failure, AutonomyController.notifyListeners,
    AutonomyController.notificationId]

theorem record_failure_fields (c : AutonomyController) (s m : String) :
    (c.record_failure s m).1.entry_id = c.entry_id ∧
    (c.record_failure s m).1.paused = c.paused ∧
    (c.record_failure s m).1.failure_threshold = c.failure_threshold ∧
    (c.record_failure s m).1.entry_options = c.entry_options ∧
    (c.record_failure s m).1.listeners = c.listeners ∧
    (c.record_failure s m).1.pause_callbacks = c.pause_callbacks ∧
    (c.record_failure s m).1.diagnostics
      = ⟨c.diagnostics.consecutive_failures + 1, some m, some s⟩ := by
  rw [record_failure_eq]
  split_ifs <;> simp

theorem record_failure_active (c : AutonomyController) (s m : String) :
    (c.record_failure s m).1.notification_active
      = (if ((c.diagnostics.consecutive_failures + 1 : Nat) : Int) < c.failure_threshold
         then c.notification_active
         else true) := by
  rw [record_failure_eq]
  split_ifs with h1 h2 <;> simp_all

theorem record_failure_effects (c : AutonomyController) (s m : String) :
    (c.record_failure s m).2
      = c.listeners.map AEffect.listenerNotified ++
        (if ((c.diagnostics.consecutive_failures + 1 : Nat) : Int) < c.failure_threshold then []
         else if c.notification_active = true then []
         else [AEffect.notificationCreated
                (NOTIFICATION_AUTONOMY_FAILURE ++ "_" ++ c.entry_id) false]) := by
  rw [record_failure_eq]
  split_ifs <;> simp

/-! ## C1: failure accounting and threshold-2 notification streaks -/

theorem streak_step {n : Nat} {c : AutonomyController} (s m : String)
    (ht : c.failure_threshold = 2) (hn : c.diagnostics.consecutive_failures = n)
    (ha : c.notification_active = decide (2 ≤ n)) :
    (c.record_failure s m).1.failure_threshold = 2 ∧
    (c.record_failure s m).1.diagnostics.consecutive_failures = n + 1 ∧
    (c.record_failure s m).1.notification_active = decide (2 ≤ n + 1) ∧
    (notifEffects (c.record_failure s m).2).length = (if n = 1 then 1 else 0) := by
  obtain ⟨-, -, hthr, -, -, -, hd⟩ := record_failure_fields c s m
  have hcond : (((c.diagnostics.consecutive_failures + 1 : Nat) : Int) < c.failure_threshold)
      ↔ n = 0 := by
    rw [ht, hn]; omega
  refine ⟨by rw [hthr, ht], by rw [hd]; simp [hn], ?_, ?_⟩
  · rw [record_failure_active]
    simp only [hcond]
    by_cases h0 : n = 0
    · simp [h0, ha]
    · have h2 : 2 ≤ n + 1 := by omega
      simp [h0, h2]
  · rw [record_failure_effects, notifEffects_append, notifEffects_listener_map,
      List.nil_append]
    simp only [hcond, ha]
    by_cases h0 : n = 0
    · simp [h0, notifEffects]
    · by_cases h1 : n = 1
      · simp [h0, h1, notifEffects, List.filter, AEffect.isNotif]
      · have h2 : 2 ≤ n := by omega
        simp [h0, h1, h2, notifEffects]

theorem streak_run (calls : List (String × String)) :
    ∀ (n : Nat) (c : AutonomyController), c.failure_threshold = 2 →
      c.diagnostics.consecutive_failures = n →
      c.notification_active = decide (2 ≤ n) →
      (notifEffects (run_failures c calls).2).length
        = (if n < 2 ∧ 2 ≤ n + calls.length then 1 else 0) := by
  induction calls with
  | nil =>
    intro n c ht hn ha
    simp only [run_failures, notifEffects]
    have hno : ¬ (n < 2 ∧ 2 ≤ n) := by omega
    simp [hno]
  | cons q rest ih =>
    intro n c ht hn ha
    obtain ⟨s, m⟩ := q
    simp only [run_failures, notifEffects_append, List.length_append]
    obtain ⟨ht2, hn2, ha2, hlen⟩ := streak_step s m ht hn ha
    rw [hlen, ih (n + 1) _ ht2 hn2 ha2]
    simp only [List.length_cons]
    split_ifs <;> omega

/-- C1: with `failure_threshold = 2`, every `record_failure` call
increments the counter, records the source and message, and notifies every
registered listener exactly once in order; the host notification fires on
a call exactly when the new count reaches the threshold with no
notification already active, and over a whole failure streak started from
a healthy state it fires exactly once as soon as the streak has two calls;
`upstream_available` holds exactly when the counter is zero. -/
theorem claim_C1 (c : AutonomyController) (s m : String) :
    ((c.record_failure s m).1.diagnostics.consecutive_failures
        = c.diagnostics.consecutive_failures + 1) ∧
    ((c.record_failure s m).1.diagnostics.last_source = some s) ∧
    ((c.record_failure s m).1.diagnostics.last_failure = some m) ∧
    (listenerEffects (c.record_failure s m).2
        = c.listeners.map AEffect.listenerNotified) ∧
    (c.failure_threshold = 2 →
      notifEffects (c.record_failure s m).2
        = (if 2 ≤ c.diagnostics.consecutive_failures + 1 ∧ c.notification_active = false
           then [AEffect.notificationCreated
                  (NOTIFICATION_AUTONOMY_FAILURE ++ "_" ++ c.entry_id) false]
           else [])) ∧
    (c.failure_threshold = 2 → c.diagnostics.consecutive_failures = 0 →
      c.notification_active = false →
      ∀ calls : List (String × String),
        (notifEffects (run_failures c calls).2).length
          = (if 2 ≤ calls.length then 1 else 0)) ∧
    ((c.record_failure s m).1.upstream_available = false) ∧
    (c.upstream_available = true ↔ c.diagnostics.consecutive_failures = 0) := by
  obtain ⟨-, -, -, -, hl, -, hd⟩ := record_failure_fields c s m
  refine ⟨by rw [hd], by rw [hd], by rw [hd], ?_, ?_, ?_, ?_, ?_⟩
  · rw [record_failure_effects, listenerEffects_append, listenerEffects_listener_map]
    split
    · simp [listenerEffects]
    · split <;> simp [listenerEffects, List.filter, AEffect.isListener]
  · intro ht
    have hcond : (((c.diagnostics.consecutive_failures + 1 : Nat) : Int)
        < c.failure_threshold) ↔ ¬ 2 ≤ c.diagnostics.consecutive_failures + 1 := by
      rw [ht]; omega
    rw [record_failure_effects, notifEffects_append, notifEffects_listener_map,
      List.nil_append]
    simp only [hcond]
    by_cases h2 : 2 ≤ c.diagnostics.consecutive_failures + 1
    · by_cases hna : c.notification_active = true
      · simp [h2, hna, notifEffects]
      · simp only [eq_true_eq_id] at hna
        simp [h2, hna, notifEffects, List.filter, AEffect.isNotif]
    · simp [h2, notifEffects]
  · intro ht h0 hna calls
    have ha : c.notification_active = decide (2 ≤ 0) := by rw [hna]; rfl
    have h := streak_run calls 0 c ht h0 ha
    simpa using h
  · rw [AutonomyController.upstream_available, hd]
    simp
  · rw [AutonomyController.upstream_available]
    simp

/-- Witness for C1: three failures from a healthy threshold-2 controller
produce exactly one host notification. -/
theorem claim_C1_witness :
    (notifEffects (run_failures (AutonomyController.init "entry" none false 2)
        [("src1", "m1"), ("src2", "m2"), ("src3", "m3")]).2).length = 1 := by
  have h := (claim_C1 (AutonomyController.init "entry" none false 2) "src1" "m1").2.2.2.2.2.1
    (by decide) (by decide) (by decide) [("src1", "m1"), ("src2", "m2"), ("src3", "m3")]
  simpa using h

/-! ## C4: record_success -/

/-- C4: `record_success` on a healthy controller with no active
notification is a strict no-op (identical state, zero effects); otherwise
it resets the diagnostics, clears the failure fields and the notification
flag, leaves every other field unchanged, and its whole effect trace is
one notification per registered listener, in order. -/
theorem claim_C4 (c : AutonomyController) :
    (c.diagnostics.consecutive_failures = 0 ∧ c.notification_active = false →
      c.record_success = (c, [])) ∧
    (¬ (c.diagnostics.consecutive_failures = 0 ∧ c.notification_active = false) →
      c.record_success.1.diagnostics.consecutive_failures = 0 ∧
      c.record_success.1.diagnostics.last_failure = none ∧
      c.record_success.1.diagnostics.last_source = none ∧
      c.record_success.1.notification_active = false ∧
      c.record_success.1.paused = c.paused ∧
      c.record_success.1.entry_id = c.entry_id ∧
      c.record_success.1.failure_threshold = c.failure_threshold ∧
      c.record_success.1.entry_options = c.entry_options ∧
      c.record_success.1.listeners = c.listeners ∧
      c.record_success.1.pause_callbacks = c.pause_callbacks ∧
      c.record_success.2 = c.listeners.map AEffect.listenerNotified) := by
  constructor
  · rintro ⟨h0, ha⟩
    unfold AutonomyController.record_success
    rw [if_pos]
    simp [h0, ha]
  · intro h
    have hcond : ¬ ((c.diagnostics.consecutive_failures == 0) && !c.notification_active) = true := by
      simp only [Bool.and_eq_true, beq_iff_eq, Bool.not_eq_true']
      exact h
    unfold AutonomyController.record_success AutonomyController.notifyListeners
    rw [if_neg hcond]
    simp

/-- Witness for C4: applying the theorem to a controller with one recorded
failure shows the reset path, and to a fresh controller the no-op path. -/
theorem claim_C4_witness :
    ((AutonomyController.init "e" none false 3).record_success
        = (AutonomyController.init "e" none false 3, [])) ∧
    ((AutonomyController.init "e" none false 3).record_failure "s" "m").1.record_success.2 = [] := by
  constructor
  · exact (claim_C4 (AutonomyController.init "e" none false 3)).1 (by decide)
  · have h := (claim_C4 ((AutonomyController.init "e" none false 3).record_failure "s" "m").1).2
      (by decide)
    have h2 := h.2.2.2.2.2.2.2.2.2.2
    rw [h2]
    decide

/-! ## C3 and C7: async_set_paused -/

theorem set_paused_eq (c : AutonomyController) (p persist force : Bool) :
    c.async_set_paused p persist force =
      (let c2 : AutonomyController :=
        { c with paused := p,
                 entry_options :=
                   if persist = true ∧ c.entry_options ≠ some p
                   then some p else c.entry_options }
       let persistEff : List AEffect :=
        if persist = true ∧ c.entry_options ≠ some p
        then [AEffect.optionsWritten p] else []
       if p ≠ c.paused ∨ force = true then
         (c2, persistEff
           ++ c.pause_callbacks.map (fun cb => AEffect.pauseCallbackInvoked cb p)
           ++ c.listeners.map AEffect.listenerNotified)
       else (c2, persistEff)) := by
  simp only [AutonomyController.async_set_paused, AutonomyController.update_entry_options,
    AutonomyController.notifyListeners]
  rcases persist with _ | _ <;> rcases force with _ | _ <;>
    by_cases hop : c.entry_options = some p <;> by_cases hch : p = c.paused <;>
      simp_all

theorem set_paused_fst_paused (c : AutonomyController) (p persist force : Bool) :
    (c.async_set_paused p persist force).1.paused = p := by
  rw [set_paused_eq]
  dsimp only
  split_ifs <;> rfl

theorem set_paused_fst_options (c : AutonomyController) (p persist force : Bool) :
    (c.async_set_paused p persist force).1.entry_options
      = (if persist = true ∧ c.entry_options ≠ some p then some p else c.entry_options) := by
  rw [set_paused_eq]
  dsimp only
  split_ifs <;> rfl

/-- C3: a `set_paused` call that changes the value or carries
`force_notify` invokes every registered pause callback exactly once with
the new value, in registration order, and notifies every state listener
exactly once; otherwise it invokes no callback and no listener.  In
particular two consecutive `set_paused(true)` calls fan out exactly once
in total, and a forced call on an already-paused controller fans out
again. -/
theorem claim_C3 (c : AutonomyController) (p persist force : Bool) :
    ((p ≠ c.paused ∨ force = true) →
      pauseCbEffects (c.async_set_paused p persist force).2
          = c.pause_callbacks.map (fun cb => AEffect.pauseCallbackInvoked cb p) ∧
      listenerEffects (c.async_set_paused p persist force).2
          = c.listeners.map AEffect.listenerNotified) ∧
    (¬ (p ≠ c.paused ∨ force = true) →
      pauseCbEffects (c.async_set_paused p persist force).2 = [] ∧
      listenerEffects (c.async_set_paused p persist force).2 = []) ∧
    (c.paused = false →
      pauseCbEffects ((c.async_set_paused true true false).2
          ++ ((c.async_set_paused true true false).1.async_set_paused true true false).2)
        = c.pause_callbacks.map (fun cb => AEffect.pauseCallbackInvoked cb true)) ∧
    (c.paused = true →
      pauseCbEffects (c.async_set_paused true persist true).2
        = c.pause_callbacks.map (fun cb => AEffect.pauseCallbackInvoked cb true)) := by
  have hcb : ∀ (q per fo : Bool) (d : AutonomyController),
      (q ≠ d.paused ∨ fo = true) →
      pauseCbEffects (d.async_set_paused q per fo).2
        = d.pause_callbacks.map (fun cb => AEffect.pauseCallbackInvoked cb q) := by
    intro q per fo d h
    rw [set_paused_eq]
    simp only [if_pos h]
    rw [pauseCbEffects_append, pauseCbEffects_append, pauseCbEffects_pause_map,
      pauseCbEffects_listener_map, List.append_nil]
    split_ifs <;> simp [pauseCbEffects, List.filter, AEffect.isPauseCb]
  have hlis : ∀ (q per fo : Bool) (d : AutonomyController),
      (q ≠ d.paused ∨ fo = true) →
      listenerEffects (d.async_set_paused q per fo).2
        = d.listeners.map AEffect.listenerNotified := by
    intro q per fo d h
    rw [set_paused_eq]
    simp only [if_pos h]
    rw [listenerEffects_append, listenerEffects_append, listenerEffects_pause_map,
      listenerEffects_listener_map]
    split_ifs <;> simp [listenerEffects, List.filter, AEffect.isListener]
  have hnone : ∀ (q per fo : Bool) (d : AutonomyController),
      ¬ (q ≠ d.paused ∨ fo = true) →
      pauseCbEffects (d.async_set_paused q per fo).2 = [] ∧
      listenerEffects (d.async_set_paused q per fo).2 = [] := by
    intro q per fo d h
    rw [set_paused_eq]
    simp only [if_neg h]
    constructor <;>
      split_ifs <;>
        simp [pauseCbEffects, listenerEffects, List.filter, AEffect.isPauseCb,
          AEffect.isListener]
  refine ⟨fun h => ⟨hcb p persist force c h, hlis p persist force c h⟩,
    hnone p persist force c, ?_, ?_⟩
  · intro hp
    have hpost : (c.async_set_paused true true false).1.paused = true :=
      set_paused_fst_paused c true true false
    have h1 := hcb true true false c (by simp [hp])
    have h2 := (hnone true true false (c.async_set_paused true true false).1
      (by simp [hpost])).1
    rw [pauseCbEffects_append, h1, h2, List.append_nil]
  · intro hp
    exact hcb true persist true c (by simp)

/-- Witness for C3: a pause toggle on a fresh controller with two
registered callbacks fans out to both exactly once. -/
theorem claim_C3_witness :
    pauseCbEffects (((AutonomyController.init "e" none false 3).add_pause_callbacks
        [7, 8]).async_set_paused true true false).2
      = [AEffect.pauseCallbackInvoked 7 true, AEffect.pauseCallbackInvoked 8 true] := by
  have h := (claim_C3 ((AutonomyController.init "e" none false 3).add_pause_callbacks [7, 8])
    true true false).1 (by decide)
  rw [h.1]
  decide

/-- C7: with `persist = true`, the durable options storage is written
exactly when the stored `autonomy_paused` value differs from the new
value (a missing key counts as different); when it already matches, the
stored options are left untouched.  The in-memory `paused` flag is always
updated to the new value. -/
theorem claim_C7 (c : AutonomyController) (p force : Bool) :
    (writeEffects (c.async_set_paused p true force).2
        = (if c.entry_options = some p then [] else [AEffect.optionsWritten p])) ∧
    (c.entry_options = some p →
      (c.async_set_paused p true force).1.entry_options = c.entry_options) ∧
    (c.entry_options ≠ some p →
      (c.async_set_paused p true force).1.entry_options = some p) ∧
    (c.async_set_paused p true force).1.paused = p := by
  have hw : writeEffects (c.async_set_paused p true force).2
      = (if c.entry_options = some p then [] else [AEffect.optionsWritten p]) := by
    rw [set_paused_eq]
    dsimp only
    by_cases hop : c.entry_options = some p <;>
      split_ifs <;>
        simp_all [writeEffects_append, writeEffects_pause_map, writeEffects_listener_map,
          writeEffects, List.filter, AEffect.isWrite]
  refine ⟨hw, ?_, ?_, ?_⟩
  · intro hop
    rw [set_paused_fst_options]
    simp [hop]
  · intro hop
    rw [set_paused_fst_options]
    simp [hop]
  · exact set_paused_fst_paused c p true force

/-- Witness for C7: persisting `true` over stored `false` writes once;
persisting `true` over stored `true` writes nothing. -/
theorem claim_C7_witness :
    writeEffects ((AutonomyController.init "e" (some false) false 3).async_set_paused
        true true false).2 = [AEffect.optionsWritten true] ∧
    ((AutonomyController.init "e" (some true) false 3).async_set_paused
        true true false).1.entry_options = some true := by
  constructor
  · have h := (claim_C7 (AutonomyController.init "e" (some false) false 3) true false).1
    rw [h]
    decide
  · have h := (claim_C7 (AutonomyController.init "e" (some true) false 3) true false).2.1
      (by decide)
    rw [h]
    decide

/-! ## C8: fire-and-forget notification with a fixed id -/

theorem record_success_threshold (c : AutonomyController) :
    c.record_success.1.failure_threshold = c.failure_threshold := by
  unfold AutonomyController.record_success
  split <;> simp

theorem set_paused_fst_threshold (c : AutonomyController) (p persist force : Bool) :
    (c.async_set_paused p persist force).1.failure_threshold = c.failure_threshold := by
  rw [set_paused_eq]
  dsimp only
  split_ifs <;> rfl

/-- C8: `record_failure` composed with the host dispatch always returns
normally — the outcome of the notification channel, failing or not, never
propagates to the caller — and any notification it fires carries the
fixed identifier built from the constant prefix and the entry id, which
`record_failure` never changes. -/
theorem claim_C8 (c : AutonomyController) (s m : String) (channel : Except String Unit) :
    (c.record_failure_run s m channel = Except.ok (c.record_failure s m)) ∧
    ((c.record_failure s m).1.entry_id = c.entry_id) ∧
    (notifEffects (c.record_failure s m).2 = [] ∨
      notifEffects (c.record_failure s m).2
        = [AEffect.notificationCreated
            (NOTIFICATION_AUTONOMY_FAILURE ++ "_" ++ c.entry_id) false]) := by
  refine ⟨?_, (record_failure_fields c s m).1, ?_⟩
  · simp only [AutonomyController.record_failure_run, AutonomyController.record_failure,
      hostServiceDispatch, AutonomyController.notifyListeners,
      AutonomyController.notificationId, Bool.false_eq_true, if_false]
    split_ifs <;> rfl
  · rw [record_failure_effects, notifEffects_append, notifEffects_listener_map,
      List.nil_append]
    split_ifs <;> simp [notifEffects, List.filter, AEffect.isNotif]

/-! ## C10: effective threshold is max(1, configured) -/

/-- C10: the constructor stores `max 1 failure_threshold`, every state
reachable through the public operations keeps a threshold of at least one,
and with an effective threshold of at most one the very first
`record_failure` of a streak (no active notification) already fires the
host notification. -/
theorem claim_C10 :
    (∀ (entry_id : String) (stored : Option Bool) (initial_paused : Bool) (t : Int),
      (AutonomyController.init entry_id stored initial_paused t).failure_threshold
        = max 1 t) ∧
    (∀ c : AutonomyController, Reachable c → 1 ≤ c.failure_threshold) ∧
    (∀ (c : AutonomyController) (s m : String), c.failure_threshold ≤ 1 →
      c.notification_active = false →
      notifEffects (c.record_failure s m).2
        = [AEffect.notificationCreated
            (NOTIFICATION_AUTONOMY_FAILURE ++ "_" ++ c.entry_id) false]) := by
  refine ⟨fun _ _ _ _ => rfl, ?_, ?_⟩
  · intro c h
    induction h with
    | init eid st p t =>
      have : (AutonomyController.init eid st p t).failure_threshold = max 1 t := rfl
      rw [this]
      omega
    | fail s m h ih =>
      rw [(record_failure_fields _ s m).2.2.1]
      exact ih
    | succ h ih =>
      rw [record_success_threshold]
      exact ih
    | pause p persist force h ih =>
      rw [set_paused_fst_threshold]
      exact ih
    | listener l h ih =>
      simpa [AutonomyController.async_add_listener] using ih
    | callbacks cbs h ih =>
      simpa [AutonomyController.add_pause_callbacks] using ih
  · intro c s m ht ha
    rw [record_failure_effects, notifEffects_append, notifEffects_listener_map,
      List.nil_append]
    have hcond : ¬ (((c.diagnostics.consecutive_failures + 1 : Nat) : Int)
        < c.failure_threshold) := by omega
    rw [if_neg hcond, if_neg (by simp [ha])]
    rfl

/-- Witness for C10: a controller configured with a negative threshold is
clamped to one, and with a zero-configured threshold the first failure
already notifies. -/
theorem claim_C10_witness :
    1 ≤ (AutonomyController.init "e" none false (-5)).failure_threshold ∧
    notifEffects ((AutonomyController.init "e" none false 0).record_failure "s" "m").2
      = [AEffect.notificationCreated
          (NOTIFICATION_AUTONOMY_FAILURE ++ "_" ++
            (AutonomyController.init "e" none false 0).entry_id) false] := by
  constructor
  · exact claim_C10.2.1 _ (Reachable.init "e" none false (-5))
  · exact claim_C10.2.2 (AutonomyController.init "e" none false 0) "s" "m"
      (by decide) (by decide)

/-! ## Invoke-service gate: C5, C6, C9 -/

theorem handle_invoke_eq (auto : AutonomyController) (req : ActionRequest)
    (executor : Except String String) (upstream : Except String Unit)
    (h1 : req.entry_id ≠ "") (h2 : req.domain ≠ "") (h3 : req.service ≠ "")
    (hp : auto.paused = false) :
    handle_invoke auto req executor upstream =
      (Except.ok
        { success := (match executor with | Except.ok _ => true | Except.error _ => false)
          result := (match executor with | Except.ok r => some r | Except.error _ => none)
          error := (match executor with | Except.ok _ => none | Except.error e => some e)
          correlation_id := normOpt req.correlation_id },
       { executor_calls := [(req.domain, req.service, req.service_data)]
         audit_events := [buildActionAudit req.entry_id req.domain req.service
            (normOpt req.correlation_id)
            (match executor with | Except.ok _ => true | Except.error _ => false)
            req.target
            (match executor with | Except.ok _ => none | Except.error e => some e)]
         upstream_payloads := [buildActionPayload req.entry_id req.domain req.service
            req.service_data
            (match executor with | Except.ok _ => true | Except.error _ => false)
            (match executor with | Except.ok r => some r | Except.error _ => none)
            req.target (normOpt req.correlation_id)
            (serialize_context_for_action
              { req with correlation_id := normOpt req.correlation_id
                         context_id := normOpt req.context_id
                         context_user_id := normOpt req.context_user_id
                         context_parent_id := normOpt req.context_parent_id })
            (match executor with | Except.ok _ => none | Except.error e => some e)]
         autonomy := (match upstream with
            | Except.ok _ => auto.record_success
            | Except.error e => auto.record_failure "action_result" e).1
         autonomy_effects := (match upstream with
            | Except.ok _ => auto.record_success
            | Except.error e => auto.record_failure "action_result" e).2 }) := by
  unfold handle_invoke validate_action_service_data
  rw [if_neg h1, if_neg h2, if_neg h3]
  dsimp only
  rw [if_neg (by simp [hp])]
  cases executor <;> cases upstream <;> rfl

/-- C5: a well-formed request arriving while autonomy is paused is
rejected with the paused error, with no executor call, no audit event, no
upstream report, and an unchanged autonomy controller. -/
theorem claim_C5 (auto : AutonomyController) (req : ActionRequest)
    (executor : Except String String) (upstream : Except String Unit)
    (h1 : req.entry_id ≠ "") (h2 : req.domain ≠ "") (h3 : req.service ≠ "")
    (hp : auto.paused = true) :
    handle_invoke auto req executor upstream =
      (Except.error "Autonomy is currently paused for this Embodied AI instance",
       { executor_calls := [], audit_events := [], upstream_payloads := [],
         autonomy := auto, autonomy_effects := [] }) := by
  unfold handle_invoke validate_action_service_data
  rw [if_neg h1, if_neg h2, if_neg h3]
  dsimp only
  rw [if_pos hp]

/-- Witness for C5: a concrete valid request on a paused controller. -/
theorem claim_C5_witness :
    handle_invoke (AutonomyController.init "e1" none true 3)
        ⟨"e1", "light", "turn_on", [], none, none, none, none, none⟩
        (Except.ok "ok") (Except.ok ()) =
      (Except.error "Autonomy is currently paused for this Embodied AI instance",
       { executor_calls := [], audit_events := [], upstream_payloads := [],
         autonomy := AutonomyController.init "e1" none true 3, autonomy_effects := [] }) :=
  claim_C5 (AutonomyController.init "e1" none true 3)
    ⟨"e1", "light", "turn_on", [], none, none, none, none, none⟩
    (Except.ok "ok") (Except.ok ())
    (by decide) (by decide) (by decide) (by decide)

/-- C6: executor errors are converted into a structured failure response
(success false, error captured, no result) rather than propagating; the
response and the audit do not depend on the upstream report outcome; a
failing upstream report drives `record_failure("action_result", ·)` and a
successful one drives `record_success`. -/
theorem claim_C6 (auto : AutonomyController) (req : ActionRequest)
    (e m : String) (executor : Except String String)
    (h1 : req.entry_id ≠ "") (h2 : req.domain ≠ "") (h3 : req.service ≠ "")
    (hp : auto.paused = false) :
    ((handle_invoke auto req (Except.error e) (Except.ok ())).1
        = Except.ok ⟨false, none, some e, normOpt req.correlation_id⟩) ∧
    ((handle_invoke auto req (Except.error e) (Except.error m)).1
        = Except.ok ⟨false, none, some e, normOpt req.correlation_id⟩) ∧
    ((handle_invoke auto req executor (Except.error m)).1
        = (handle_invoke auto req executor (Except.ok ())).1) ∧
    ((handle_invoke auto req executor (Except.error m)).2.audit_events
        = (handle_invoke auto req executor (Except.ok ())).2.audit_events) ∧
    ((handle_invoke auto req executor (Except.error m)).2.autonomy
        = (auto.record_failure "action_result" m).1) ∧
    ((handle_invoke auto req executor (Except.ok ())).2.autonomy
        = auto.record_success.1) := by
  refine ⟨?_, ?_, ?_, ?_, ?_, ?_⟩
  · rw [handle_invoke_eq auto req _ _ h1 h2 h3 hp]
  · rw [handle_invoke_eq auto req _ _ h1 h2 h3 hp]
  · rw [handle_invoke_eq auto req _ _ h1 h2 h3 hp,
      handle_invoke_eq auto req _ _ h1 h2 h3 hp]
  · rw [handle_invoke_eq auto req _ _ h1 h2 h3 hp,
      handle_invoke_eq auto req _ _ h1 h2 h3 hp]
  · rw [handle_invoke_eq auto req _ _ h1 h2 h3 hp]
  · rw [handle_invoke_eq auto req _ _ h1 h2 h3 hp]

/-- Witness for C6: a concrete failing executor call on an unpaused
controller yields the structured failure response. -/
theorem claim_C6_witness :
    (handle_invoke (AutonomyController.init "e1" none false 3)
        ⟨"e1", "light", "turn_on", [], none, none, none, none, none⟩
        (Except.error "boom") (Except.ok ())).1
      = Except.ok ⟨false, none, some "boom", none⟩ := by
  have h := (claim_C6 (AutonomyController.init "e1" none false 3)
    ⟨"e1", "light", "turn_on", [], none, none, none, none, none⟩
    "boom" "netfail" (Except.ok "ok")
    (by decide) (by decide) (by decide) (by decide)).1
  exact h

/-- C9 counterexample: an executed request carrying no correlation id
still produces an audit record with a `correlation_id` field (holding
null), so the audit record does not omit the field. -/
theorem claim_C9_counterexample :
    ((handle_invoke (AutonomyController.init "entry-1" none false 3)
        ⟨"entry-1", "light", "turn_on", [], none, none, none, none, none⟩
        (Except.ok "ok") (Except.ok ())).2.audit_events.map
          (fun a => List.lookup "correlation_id" a))
      = [some AVal.null] := by
  decide

/-- C9 (amended): every executed invocation emits exactly one audit
record, whose fields are exactly entry id, domain, service, a
`correlation_id` field that is always present (the supplied id, or null
when none was supplied), the success flag, the target only when supplied,
and the error text only on failure. -/
theorem claim_C9_amended (auto : AutonomyController) (req : ActionRequest)
    (executor : Except String String) (upstream : Except String Unit)
    (h1 : req.entry_id ≠ "") (h2 : req.domain ≠ "") (h3 : req.service ≠ "")
    (hp : auto.paused = false) :
    ∃ a, (handle_invoke auto req executor upstream).2.audit_events = [a] ∧
      a.map Prod.fst
        = ["entry_id", "domain", "service", "correlation_id", "success"]
          ++ (match req.target with | some _ => ["target"] | none => [])
          ++ (match executor with | Except.ok _ => [] | Except.error _ => ["error"]) ∧
      List.lookup "entry_id" a = some (AVal.str req.entry_id) ∧
      List.lookup "domain" a = some (AVal.str req.domain) ∧
      List.lookup "service" a = some (AVal.str req.service) ∧
      List.lookup "correlation_id" a
        = some (match normOpt req.correlation_id with
            | some s => AVal.str s
            | none => AVal.null) ∧
      List.lookup "success" a
        = some (AVal.bool (match executor with
            | Except.ok _ => true
            | Except.error _ => false)) ∧
      List.lookup "target" a
        = (match req.target with | some t => some (AVal.strMap t) | none => none) ∧
      List.lookup "error" a
        = (match executor with
            | Except.ok _ => none
            | Except.error e => some (AVal.str e)) := by
  rw [handle_invoke_eq auto req executor upstream h1 h2 h3 hp]
  obtain ⟨eid, dom, svc, sd, tgt, corr, c1, c2, c3⟩ := req
  dsimp only at h1 h2 h3 ⊢
  cases tgt <;> cases executor <;>
    exact ⟨_, rfl, rfl, rfl, rfl, rfl, rfl, rfl, rfl, rfl⟩

/-- Witness for C9 (amended): a concrete request with a correlation id
produces one audit whose `correlation_id` field holds that id. -/
theorem claim_C9_amended_witness :
    ∃ a, (handle_invoke (AutonomyController.init "e2" none false 3)
        ⟨"e2", "light", "turn_on", [], none, some "corr-1", none, none, none⟩
        (Except.ok "ok") (Except.ok ())).2.audit_events = [a] ∧
      List.lookup "correlation_id" a = some (AVal.str "corr-1") := by
  obtain ⟨a, ha, -, -, -, -, hcorr, -, -, -⟩ :=
    claim_C9_amended (AutonomyController.init "e2" none false 3)
      ⟨"e2", "light", "turn_on", [], none, some "corr-1", none, none, none⟩
      (Except.ok "ok") (Except.ok ())
      (by decide) (by decide) (by decide) (by decide)
  refine ⟨a, ha, ?_⟩
  rw [hcorr]
  decide

end Aiembodied
